import Mathlib

/-!
Verification of the client-side synchronization core of the `hyperapp` todo
client (`ui/src/App.tsx` and `ui/src/store/todo.ts`).

The embedding models:
* JSON runtime values (`Json`), JavaScript member access (`Json.getField`,
  last binding wins as in `JSON.parse`) and JavaScript truthiness
  (`Json.truthy`);
* the zustand store of `store/todo.ts` (`StoreState.setTasks`, `getTasks`)
  and its persistence wrapper;
* the WebSocket message handler `ws.onmessage` (`wsOnMessage`);
* the intent handlers `fetchTasks`, `handleAddTask`, `handleToggleComplete`,
  the send gate `sendWsMessage`, and the connection lifecycle events as a
  step function (`step`) over `AppState`, iterated by `run`.
-/

/-- A JSON runtime value, as produced by `JSON.parse`. -/
inductive Json where
  | null : Json
  | bool (b : Bool) : Json
  | num (n : Int) : Json
  | str (s : String) : Json
  | arr (elems : List Json) : Json
  | obj (fields : List (String × Json)) : Json
deriving Repr

/-- JavaScript member access `value.key` on a parsed JSON value: on an object
it yields the field's value (for a duplicated key `JSON.parse` keeps the last
occurrence, so the last binding wins); on any non-object it yields `none`
(JavaScript `undefined`). Access on `null` throws and is modelled separately
at the use site. -/
def Json.getField (j : Json) (key : String) : Option Json :=
  match j with
  | Json.obj fields =>
      (fields.filter (fun p => p.1 == key)).getLast?.map (fun p => p.2)
  | _ => none

/-- JavaScript truthiness of a JSON runtime value: `false`, `0`, `""` and
`null` are falsy; every array and object (even empty) is truthy. -/
def Json.truthy : Json → Bool
  | Json.null => false
  | Json.bool b => b
  | Json.num n => n != 0
  | Json.str s => s != ""
  | Json.arr _ => true
  | Json.obj _ => true

/-- A task as in `types/todo.ts`: `{ id: string, text: string, completed: boolean }`. -/
structure TodoItem where
  id : String
  text : String
  completed : Bool
deriving Repr, DecidableEq

/-- The JSON object representing a task on the wire (§6 inbound `Task` shape). -/
def TodoItem.toJson (t : TodoItem) : Json :=
  Json.obj [("id", Json.str t.id), ("text", Json.str t.text), ("completed", Json.bool t.completed)]

/-! ## The store (`ui/src/store/todo.ts`) -/

/-- The data held by the zustand store: the task list. At runtime the store
holds whatever JSON value `setTasks` received (TypeScript types it
`TodoItem[]`), so the field is a `Json` value; a well-formed list is
`Json.arr l`. -/
structure StoreState where
  tasks : Json
deriving Repr

/-- Initial state of `todo.ts`: `tasks: []`. -/
def initialStoreState : StoreState := { tasks := Json.arr [] }

/-- Action `setTasks` of `todo.ts`: `set({ tasks: newTasks })` — unconditionally
replaces the held list (zustand `set` merges the partial state over the old
one, and `tasks` is the only data field). -/
def StoreState.setTasks (s : StoreState) (newTasks : Json) : StoreState :=
  { s with tasks := newTasks }

/-- Read path of the store: the current task list. -/
def StoreState.getTasks (s : StoreState) : Json :=
  s.tasks

/-- A sequence of `setTasks` calls, applied in order. -/
def StoreState.setTasksSeq (s : StoreState) (vs : List Json) : StoreState :=
  vs.foldl StoreState.setTasks s

/-! ## Persistence (`persist` configuration of `todo.ts`) -/

/-- Client-side durable storage (`sessionStorage`): a key-value map. The
`createJSONStorage` wrapper configured in `todo.ts` serializes every stored
value with `JSON.stringify` and parses it back with `JSON.parse` on read;
that round trip is lossless, so the embedding represents each entry by the
JSON value itself rather than by its string encoding. -/
structure Storage where
  entries : List (String × Json)
deriving Repr

/-- Mutation `setItem`: store a value under a key, replacing any previous binding. -/
def Storage.setItem (st : Storage) (key : String) (value : Json) : Storage :=
  { entries := (key, value) :: st.entries.filter (fun p => p.1 != key) }

/-- Lookup `getItem`: the value stored under a key, if any. -/
def Storage.getItem (st : Storage) (key : String) : Option Json :=
  (st.entries.filter (fun p => p.1 == key)).head?.map (fun p => p.2)

/-- The fixed persistence key configured in `todo.ts`: `name: 'todo-store'`. -/
def persistKey : String := "todo-store"

/-- The zustand store wrapped by the `persist` middleware: the in-memory
state plus the backing durable storage. -/
structure PersistedStore where
  state : StoreState
  storage : Storage
deriving Repr

/-- Modelled from the spec: the `persist` middleware (from
`zustand/middleware`, an external dependency not under `src/`) writes the
serialized task list to durable storage under the fixed key on every state
update. The key name (`'todo-store'`) and the storage choice come from
`todo.ts`; the write-on-every-update behaviour is the spec's description of
the middleware. -/
def PersistedStore.setTasks (p : PersistedStore) (newTasks : Json) : PersistedStore :=
  let s := p.state.setTasks newTasks
  { state := s, storage := p.storage.setItem persistKey s.tasks }

/-- Modelled from the spec: store initialization under the `persist`
middleware reads the storage entry under the fixed key once; when an entry
exists the persisted snapshot is restored as the initial task list, and
otherwise the store starts from `todo.ts`'s initial state (`tasks: []`).
Rehydration happens at module initialization, before the App component mounts
and opens any connection. -/
def PersistedStore.init (st : Storage) : PersistedStore :=
  match st.getItem persistKey with
  | some v => { state := { tasks := v }, storage := st }
  | none => { state := initialStoreState, storage := st }

/-! ## Outbound messages (§4.3 of the spec, built in `App.tsx`) -/

/-- Frame `{ action: "get_tasks" }` as built in `fetchTasks` and `ws.onopen`. -/
def getTasksMsg : Json :=
  Json.obj [("action", Json.str "get_tasks")]

/-- Frame `{ action: "add_task", text: <text> }` as built in `handleAddTask`
(the text sent is the raw input, not trimmed). -/
def addTaskMsg (text : String) : Json :=
  Json.obj [("action", Json.str "add_task"), ("text", Json.str text)]

/-- Frame `{ action: "toggle_task", id: <taskId> }` as built in `handleToggleComplete`. -/
def toggleTaskMsg (taskId : String) : Json :=
  Json.obj [("action", Json.str "toggle_task"), ("id", Json.str taskId)]

/-! ## The App component state (`App.tsx`) -/

/-- The `readyState` of the single WebSocket owned by the component:
`CONNECTING` right after construction, `OPEN` after the `open` event,
`CLOSED` after the `close` event. -/
inductive ReadyState where
  | connecting : ReadyState
  | opened : ReadyState
  | closed : ReadyState
deriving Repr, DecidableEq

/-- The component state of `App.tsx` relevant to the protocol: the store's
task list (`tasks`/`setTasks` from `useTodoStore`), the `wsConnected` React
state, the controlled input `newTaskText`, and the ready state of the
WebSocket held in `wsRef` (the ref is assigned synchronously when the mount
effect runs, so within the component's lifetime it is always present). -/
structure AppState where
  tasks : Json
  wsConnected : Bool
  newTaskText : String
  readyState : ReadyState
deriving Repr

/-- The component state right after mount: the store's (possibly rehydrated)
tasks, `wsConnected = false`, empty input, a freshly constructed WebSocket. -/
def initState (t0 : Json) : AppState :=
  { tasks := t0, wsConnected := false, newTaskText := "", readyState := ReadyState.connecting }

/-- The result of one event handler: the next component state, the frames
written to the socket (in order), and the `console.warn` messages issued. -/
structure StepOut where
  state : AppState
  frames : List Json
  warnings : List String
deriving Repr

/-- Function `sendWsMessage` of `App.tsx`: sends the JSON-serialized message only when
`wsRef.current` is set and `wsRef.current.readyState === WebSocket.OPEN`;
otherwise it silently does nothing (no warning, no queue). Returns the list
of frames actually written (empty or a singleton). -/
def sendWsMessage (s : AppState) (message : Json) : List Json :=
  if s.readyState == ReadyState.opened then [message] else []

/-- Handler `fetchTasks` of `App.tsx`: when `wsConnected` (the ref is present
whenever `wsConnected` holds) it sends `{ action: "get_tasks" }` through
`sendWsMessage`; otherwise it logs a warning and does nothing. -/
def fetchTasks (s : AppState) : StepOut :=
  if s.wsConnected then
    { state := s, frames := sendWsMessage s getTasksMsg, warnings := [] }
  else
    { state := s, frames := [], warnings := ["Cannot fetch tasks: WebSocket not connected"] }

/-- The JavaScript test `!text.trim()`: `String.prototype.trim` removes
leading and trailing whitespace, so its result is empty (falsy) exactly when
every character of the string is whitespace. -/
def jsTrimEmpty (text : String) : Bool :=
  text.toList.all (fun c => c.isWhitespace)

/-- Handler `handleAddTask` of `App.tsx`: returns immediately when the input trims to
empty (`if (!newTaskText.trim()) return;`) — before the connectivity check,
so no warning is logged in that case; otherwise, when `wsConnected`, it sends
`{ action: "add_task", text: newTaskText }` (untrimmed text) and clears the
input, else it logs a warning. -/
def handleAddTask (s : AppState) : StepOut :=
  if jsTrimEmpty s.newTaskText then
    { state := s, frames := [], warnings := [] }
  else if s.wsConnected then
    { state := { s with newTaskText := "" },
      frames := sendWsMessage s (addTaskMsg s.newTaskText), warnings := [] }
  else
    { state := s, frames := [], warnings := ["Cannot add task: WebSocket not connected"] }

/-- Handler `handleToggleComplete` of `App.tsx`: when `wsConnected` it sends
`{ action: "toggle_task", id: taskId }`; otherwise it logs a warning. -/
def handleToggleComplete (s : AppState) (taskId : String) : StepOut :=
  if s.wsConnected then
    { state := s, frames := sendWsMessage s (toggleTaskMsg taskId), warnings := [] }
  else
    { state := s, frames := [], warnings := ["Cannot toggle task: WebSocket not connected"] }

/-- Handler `ws.onmessage` of `App.tsx`, acting on the current task-list value.
The input is the result of `JSON.parse(event.data)`: `none` when parsing
threw (caught, `console.error` logged). On a parsed value `data`, member
access `data.type` throws on `null` (caught, error logged); the handler
updates the store only when `data.type` is one of the three recognized tag
strings and `data.tasks` is present and truthy, and then stores `data.tasks`
verbatim. Returns the new task-list value and whether a `console.error` was
logged. -/
def wsOnMessage (parsed : Option Json) (tasks : Json) : Json × Bool :=
  match parsed with
  | none => (tasks, true)
  | some Json.null => (tasks, true)
  | some data =>
      match data.getField "type" with
      | some (Json.str t) =>
          if t == "tasks_overview" || t == "task_added" || t == "task_toggled" then
            match data.getField "tasks" with
            | some v => if v.truthy then (v, false) else (tasks, false)
            | none => (tasks, false)
          else (tasks, false)
      | _ => (tasks, false)

/-! ## Connection lifecycle as a step function -/

/-- The external events driving the component: the four WebSocket callbacks
and the user-initiated intents (refresh, add — using the current input text —,
toggle, and typing into the input). -/
inductive Event where
  | wsOpen : Event
  | wsMessage (parsed : Option Json) : Event
  | wsClose : Event
  | wsError : Event
  | intentFetch : Event
  | intentAdd : Event
  | intentToggle (taskId : String) : Event
  | inputChange (text : String) : Event
deriving Repr

/-- One event handled as in `App.tsx`: `ws.onopen` sets `wsConnected` and
immediately sends `{ action: "get_tasks" }` via `ws.send` (the socket is OPEN
when `open` fires); `ws.onmessage` runs `wsOnMessage` against the store;
`ws.onclose` and `ws.onerror` clear `wsConnected`; intents dispatch to their
handlers; typing updates the controlled input. -/
def step (s : AppState) : Event → StepOut
  | Event.wsOpen =>
      { state := { s with wsConnected := true, readyState := ReadyState.opened },
        frames := [getTasksMsg], warnings := [] }
  | Event.wsMessage parsed =>
      { state := { s with tasks := (wsOnMessage parsed s.tasks).1 },
        frames := [], warnings := [] }
  | Event.wsClose =>
      { state := { s with wsConnected := false, readyState := ReadyState.closed },
        frames := [], warnings := [] }
  | Event.wsError =>
      { state := { s with wsConnected := false }, frames := [], warnings := [] }
  | Event.intentFetch => fetchTasks s
  | Event.intentAdd => handleAddTask s
  | Event.intentToggle taskId => handleToggleComplete s taskId
  | Event.inputChange text =>
      { state := { s with newTaskText := text }, frames := [], warnings := [] }

/-- Run a sequence of events from a state, accumulating the frames written to
the socket in order. -/
def run (s : AppState) : List Event → AppState × List Json
  | [] => (s, [])
  | e :: es =>
      let o := step s e
      let r := run o.state es
      (r.1, o.frames ++ r.2)

/-- The cleanup returned by the mount effect of `App.tsx`, run on unmount on
every exit path of the component's lifetime:
`if (ws.readyState === WebSocket.OPEN) ws.close()`. Returns whether
`ws.close()` was called. -/
def cleanupClosesWs (s : AppState) : Bool :=
  s.readyState == ReadyState.opened

/-! ## Claim theorems: the store and the message handler -/

/-- C3: for every list `L`, `replaceTasks(L)` (`setTasks`) followed
immediately by `getTasks` returns exactly `L`; the held list is
unconditionally replaced with no merging or diffing against prior state, for
all sequences of such calls (after any sequence ending in `setTasks L`,
`getTasks` is exactly `L`). -/
theorem C3_replaceTasks_replaces_unconditionally :
    (∀ (s : StoreState) (L : List Json),
      (s.setTasks (Json.arr L)).getTasks = Json.arr L) ∧
    (∀ (s : StoreState) (vs : List Json) (L : List Json),
      (s.setTasksSeq (vs ++ [Json.arr L])).getTasks = Json.arr L) := by
  constructor
  · intro s L; rfl
  · intro s vs L
    simp [StoreState.setTasksSeq, StoreState.setTasks, StoreState.getTasks]

/-- C8: every `setTasks` call on the persisted store writes the new task
list to durable storage under the one fixed key `todo-store`, and store
initialization (which reads that entry once, before any fresh connection is
established) restores exactly the last persisted snapshot. -/
theorem C8_persist_roundtrip :
    ∀ (p : PersistedStore) (v : Json),
      (p.setTasks v).storage.getItem persistKey = some v ∧
      (PersistedStore.init (p.setTasks v).storage).state.getTasks = v := by
  intro p v
  have hget : (p.setTasks v).storage.getItem persistKey = some v := by
    simp [PersistedStore.setTasks, StoreState.setTasks, Storage.setItem, Storage.getItem]
  refine ⟨hget, ?_⟩
  simp [PersistedStore.init, hget, StoreState.getTasks]

/-- C1: every inbound frame that parses as a JSON object whose `type` field
is one of the three recognized tags and whose `tasks` field is a JSON array
replaces the stored task list with exactly that array, in the given order;
the conclusion does not depend on which of the three tags it is, so the
processing is identical for all three. -/
theorem C1_recognized_types_replace_tasks :
    ∀ (fields : List (String × Json)) (t : String) (l : List Json) (tasks : Json),
      (Json.obj fields).getField "type" = some (Json.str t) →
      (t = "tasks_overview" ∨ t = "task_added" ∨ t = "task_toggled") →
      (Json.obj fields).getField "tasks" = some (Json.arr l) →
      wsOnMessage (some (Json.obj fields)) tasks = (Json.arr l, false) := by
  intro fields t l tasks htype hts htasks
  have hguard : (t == "tasks_overview" || t == "task_added" || t == "task_toggled") = true := by
    rcases hts with h | h | h <;> simp [h]
  simp [wsOnMessage, htype, htasks, hguard, Json.truthy]

/-- Witness for C1 at a concrete frame of type `task_added`. -/
theorem C1_recognized_types_replace_tasks_witness :
    wsOnMessage (some (Json.obj [("type", Json.str "task_added"),
        ("tasks", Json.arr [TodoItem.toJson ⟨"t1", "Buy milk", false⟩])]))
      (Json.arr [])
      = (Json.arr [TodoItem.toJson ⟨"t1", "Buy milk", false⟩], false) :=
  C1_recognized_types_replace_tasks _ "task_added" _ _ rfl (Or.inr (Or.inl rfl)) rfl

/-- C10: an inbound frame that parses as a JSON object whose `type` field is
not one of the three recognized tags leaves the task list unchanged — even
when the frame carries a `tasks` field — and is silently ignored (no error is
logged either). -/
theorem C10_unrecognized_type_ignored :
    ∀ (fields : List (String × Json)) (tasks : Json),
      (∀ t, (Json.obj fields).getField "type" = some (Json.str t) →
        ¬(t = "tasks_overview" ∨ t = "task_added" ∨ t = "task_toggled")) →
      wsOnMessage (some (Json.obj fields)) tasks = (tasks, false) := by
  intro fields tasks h
  cases htype : (Json.obj fields).getField "type" with
  | none => simp [wsOnMessage, htype]
  | some v =>
      cases v with
      | str t =>
          have hne := h t htype
          push_neg at hne
          obtain ⟨h1, h2, h3⟩ := hne
          simp [wsOnMessage, htype, h1, h2, h3]
      | null => simp [wsOnMessage, htype]
      | bool b => simp [wsOnMessage, htype]
      | num n => simp [wsOnMessage, htype]
      | arr l => simp [wsOnMessage, htype]
      | obj f2 => simp [wsOnMessage, htype]

/-- Witness for C10 at a concrete frame with an unrecognized type that does
carry a `tasks` field. -/
theorem C10_unrecognized_type_ignored_witness :
    wsOnMessage (some (Json.obj [("type", Json.str "tasks_update"),
        ("tasks", Json.arr [TodoItem.toJson ⟨"t1", "Buy milk", false⟩])]))
      (Json.arr [])
      = (Json.arr [], false) := by
  refine C10_unrecognized_type_ignored _ _ ?_
  intro t ht
  have : t = "tasks_update" := by
    simp [Json.getField] at ht
    exact ht.symm
  subst this
  decide

/-- C4 counterexample: the frame `{"type":"tasks_overview"}` parses as JSON
and misses the `tasks` field; the handler leaves the task list unchanged but
logs no error (the error flag is `false`), contradicting the claim that such
frames are dropped with a logged error. -/
theorem C4_counterexample_missing_tasks_silent :
    wsOnMessage (some (Json.obj [("type", Json.str "tasks_overview")])) (Json.arr [])
      = (Json.arr [], false) := rfl

/-- C4 amended: for every inbound frame that fails to parse as JSON, or
parses but misses the `tasks` field (it yields no `tasks` member — any
non-object value, or an object without that key), the task list is left
completely unchanged (no partial mutation) and the handler does not crash
(it is a total function); an error is logged exactly when the frame failed
to parse or parsed to `null` (whose member access throws into the catch
block), and every other such frame is dropped silently, with no error
logged. -/
theorem C4_amended_malformed_frames :
    ∀ (tasks : Json) (parsed : Option Json),
      (parsed = none ∨ ∃ data, parsed = some data ∧ data.getField "tasks" = none) →
      (wsOnMessage parsed tasks).1 = tasks ∧
      ((wsOnMessage parsed tasks).2 = true ↔
        (parsed = none ∨ parsed = some Json.null)) := by
  intro tasks parsed h
  rcases h with h | ⟨data, hp, htasks⟩
  · subst h; simp [wsOnMessage]
  · subst hp
    cases data with
    | null => simp [wsOnMessage]
    | bool b => simp [wsOnMessage, Json.getField]
    | num n => simp [wsOnMessage, Json.getField]
    | str t => simp [wsOnMessage, Json.getField]
    | arr l => simp [wsOnMessage, Json.getField]
    | obj fields =>
        have hmain : wsOnMessage (some (Json.obj fields)) tasks = (tasks, false) := by
          cases htype : (Json.obj fields).getField "type" with
          | none => simp [wsOnMessage, htype]
          | some v => cases v <;> simp [wsOnMessage, htype, htasks]
        simp [hmain]

/-- Witness for C4's amended claim at the concrete frame
`{"type":"tasks_overview"}` (parses, no `tasks` field): unchanged and
silent. -/
theorem C4_amended_malformed_frames_witness :
    (wsOnMessage (some (Json.obj [("type", Json.str "tasks_overview")])) (Json.arr [])).1
      = Json.arr [] ∧
    ((wsOnMessage (some (Json.obj [("type", Json.str "tasks_overview")])) (Json.arr [])).2 = true
      ↔ ((some (Json.obj [("type", Json.str "tasks_overview")]) : Option Json) = none ∨
        (some (Json.obj [("type", Json.str "tasks_overview")]) : Option Json)
          = some Json.null)) :=
  C4_amended_malformed_frames _ _ (Or.inr ⟨_, rfl, rfl⟩)

/-! ## Trace lemmas for the connection lifecycle -/

/-- The three outbound message builders produce pairwise distinct frames,
and `addTaskMsg` is injective in its text. -/
theorem addTaskMsg_ne_getTasksMsg (t : String) : addTaskMsg t ≠ getTasksMsg := by
  simp [addTaskMsg, getTasksMsg]

/-- Frames built by `toggleTaskMsg` are never `add_task` frames. -/
theorem addTaskMsg_ne_toggleTaskMsg (t i : String) : addTaskMsg t ≠ toggleTaskMsg i := by
  simp [addTaskMsg, toggleTaskMsg]

/-- Characterization of the frames one event can write: nothing, the
`get_tasks` frame, the `add_task` frame for the current (trim-nonempty)
input text, or a `toggle_task` frame. -/
theorem step_frames_cases (s : AppState) (e : Event) :
    (step s e).frames = [] ∨ (step s e).frames = [getTasksMsg] ∨
    ((step s e).frames = [addTaskMsg s.newTaskText] ∧ jsTrimEmpty s.newTaskText = false) ∨
    (∃ i, (step s e).frames = [toggleTaskMsg i]) := by
  cases e with
  | wsOpen => exact Or.inr (Or.inl rfl)
  | wsMessage p => exact Or.inl rfl
  | wsClose => exact Or.inl rfl
  | wsError => exact Or.inl rfl
  | inputChange t => exact Or.inl rfl
  | intentFetch =>
      by_cases hw : s.wsConnected
      · by_cases hr : s.readyState = ReadyState.opened
        · exact Or.inr (Or.inl (by simp [step, fetchTasks, hw, hr, sendWsMessage]))
        · exact Or.inl (by simp [step, fetchTasks, hw, hr, sendWsMessage])
      · exact Or.inl (by simp [step, fetchTasks, hw])
  | intentAdd =>
      by_cases ht : jsTrimEmpty s.newTaskText
      · exact Or.inl (by simp [step, handleAddTask, ht])
      · by_cases hw : s.wsConnected
        · by_cases hr : s.readyState = ReadyState.opened
          · refine Or.inr (Or.inr (Or.inl ⟨?_, by simpa using ht⟩))
            simp [step, handleAddTask, ht, hw, hr, sendWsMessage]
          · exact Or.inl (by simp [step, handleAddTask, ht, hw, hr, sendWsMessage])
        · exact Or.inl (by simp [step, handleAddTask, ht, hw])
  | intentToggle i =>
      by_cases hw : s.wsConnected
      · by_cases hr : s.readyState = ReadyState.opened
        · exact Or.inr (Or.inr (Or.inr ⟨i, by simp [step, handleToggleComplete, hw, hr, sendWsMessage]⟩))
        · exact Or.inl (by simp [step, handleToggleComplete, hw, hr, sendWsMessage])
      · exact Or.inl (by simp [step, handleToggleComplete, hw])

/-- While `wsConnected` is `false`, any event other than the socket's `open`
event writes no frame and leaves `wsConnected` `false`. -/
theorem step_disconnected_no_frames (s : AppState) (e : Event)
    (hconn : s.wsConnected = false) (hne : e ≠ Event.wsOpen) :
    (step s e).frames = [] ∧ (step s e).state.wsConnected = false := by
  cases e with
  | wsOpen => exact absurd rfl hne
  | wsMessage p => simp [step, hconn]
  | wsClose => simp [step]
  | wsError => simp [step]
  | intentFetch => simp [step, fetchTasks, hconn]
  | intentAdd =>
      by_cases ht : jsTrimEmpty s.newTaskText
      · simp [step, handleAddTask, ht, hconn]
      · simp [step, handleAddTask, ht, hconn]
  | intentToggle i => simp [step, handleToggleComplete, hconn]
  | inputChange t => simp [step, hconn]

/-- A run with no `open` event, starting disconnected, writes no frames and
stays disconnected. -/
theorem run_no_open_no_frames :
    ∀ (es : List Event) (s : AppState), s.wsConnected = false →
      Event.wsOpen ∉ es →
      (run s es).2 = [] ∧ (run s es).1.wsConnected = false := by
  intro es
  induction es with
  | nil => intro s h _; exact ⟨rfl, h⟩
  | cons e es ih =>
      intro s hconn hmem
      have hne : e ≠ Event.wsOpen := by
        intro h
        exact hmem (by rw [h]; exact List.mem_cons_self _ _)
      obtain ⟨hf, hc⟩ := step_disconnected_no_frames s e hconn hne
      have hmem2 : Event.wsOpen ∉ es := fun h => hmem (List.mem_cons_of_mem _ h)
      obtain ⟨hf2, hc2⟩ := ih (step s e).state hc hmem2
      exact ⟨by simp [run, hf, hf2], by simp [run, hc2]⟩

/-- Splitting a run at an intermediate point. -/
theorem run_append (s : AppState) (es1 es2 : List Event) :
    run s (es1 ++ es2)
      = ((run (run s es1).1 es2).1, (run s es1).2 ++ (run (run s es1).1 es2).2) := by
  induction es1 generalizing s with
  | nil => simp [run]
  | cons e es ih => simp [run, ih]

/-! ## Claim theorems: the connection lifecycle -/

/-- C5: in a connection lifetime (one mount, at most one `open` event), the
transition to Connected sends exactly one `{action: "get_tasks"}` frame, and
no frame whatsoever is written before it: the cumulative output of any
event sequence up to and including the `open` event is exactly
`[getTasksMsg]`. -/
theorem C5_open_sends_one_get_tasks_first :
    ∀ (t0 : Json) (es : List Event), Event.wsOpen ∉ es →
      (run (initState t0) (es ++ [Event.wsOpen])).2 = [getTasksMsg] := by
  intro t0 es hmem
  obtain ⟨hf, hc⟩ := run_no_open_no_frames es (initState t0) rfl hmem
  rw [run_append, hf]
  simp [run, step]

/-- Witness for C5: the trace that opens immediately. -/
theorem C5_open_sends_one_get_tasks_first_witness :
    (run (initState (Json.arr [])) ([] ++ [Event.wsOpen])).2 = [getTasksMsg] :=
  C5_open_sends_one_get_tasks_first (Json.arr []) [] (List.not_mem_nil _)

/-- One step preserves the invariant that `wsConnected` implies the socket's
`readyState` is `OPEN` (only `ws.onopen` sets `wsConnected`, and it fires on
an OPEN socket; `ws.onclose` and `ws.onerror` clear it). -/
theorem step_connected_implies_opened (s : AppState) (e : Event)
    (h : s.wsConnected = true → s.readyState = ReadyState.opened) :
    (step s e).state.wsConnected = true → (step s e).state.readyState = ReadyState.opened := by
  have hstep : (step s e).state.readyState = ReadyState.opened ∨
      ((step s e).state.wsConnected = s.wsConnected ∧
        (step s e).state.readyState = s.readyState) ∨
      (step s e).state.wsConnected = false := by
    cases e with
    | wsOpen => exact Or.inl rfl
    | wsMessage p => exact Or.inr (Or.inl ⟨rfl, rfl⟩)
    | wsClose => exact Or.inr (Or.inr rfl)
    | wsError => exact Or.inr (Or.inr rfl)
    | intentFetch =>
        refine Or.inr (Or.inl ?_)
        by_cases hw : s.wsConnected <;> simp [step, fetchTasks, hw]
    | intentAdd =>
        refine Or.inr (Or.inl ?_)
        by_cases ht : jsTrimEmpty s.newTaskText
        · simp [step, handleAddTask, ht]
        · by_cases hw : s.wsConnected <;> simp [step, handleAddTask, ht, hw]
    | intentToggle i =>
        refine Or.inr (Or.inl ?_)
        by_cases hw : s.wsConnected <;> simp [step, handleToggleComplete, hw]
    | inputChange t => exact Or.inr (Or.inl ⟨rfl, rfl⟩)
  intro hc
  rcases hstep with h1 | ⟨h2, h3⟩ | h4
  · exact h1
  · rw [h3]; exact h (h2 ▸ hc)
  · rw [h4] at hc; cases hc

/-- The invariant `wsConnected → readyState = OPEN` holds along every run. -/
theorem run_connected_implies_opened :
    ∀ (es : List Event) (s : AppState),
      (s.wsConnected = true → s.readyState = ReadyState.opened) →
      ((run s es).1.wsConnected = true → (run s es).1.readyState = ReadyState.opened) := by
  intro es
  induction es with
  | nil => intro s h; exact h
  | cons e es ih =>
      intro s h
      have h2 := step_connected_implies_opened s e h
      simpa [run] using ih (step s e).state h2

/-- C9: after any event sequence of the component's lifetime, if the
connection is currently Connected (`wsConnected`), the unmount cleanup
actively closes the WebSocket (its `readyState` is OPEN, so the cleanup's
guard fires and `ws.close()` is called). -/
theorem C9_unmount_closes_connected :
    ∀ (t0 : Json) (es : List Event),
      (run (initState t0) es).1.wsConnected = true →
      cleanupClosesWs (run (initState t0) es).1 = true := by
  intro t0 es h
  have hr := run_connected_implies_opened es (initState t0) (by intro hc; cases hc) h
  simp [cleanupClosesWs, hr]

/-- Witness for C9: the component unmounting right after the connection
opened. -/
theorem C9_unmount_closes_connected_witness :
    cleanupClosesWs (run (initState (Json.arr [])) [Event.wsOpen]).1 = true :=
  C9_unmount_closes_connected (Json.arr []) [Event.wsOpen] rfl

/-- C6: every frame any event writes to the socket is one of the three
contractual shapes — `{action:"get_tasks"}`, `{action:"add_task",text:…}`,
`{action:"toggle_task",id:…}` — and no event writes more than one frame;
moreover, in a Connected state each user intent writes exactly one frame of
its shape (for add, when the text does not trim to empty). -/
theorem C6_outbound_frame_shapes :
    (∀ (s : AppState) (e : Event),
      (step s e).frames.length ≤ 1 ∧
      (∀ f, f ∈ (step s e).frames →
        f = getTasksMsg ∨ (∃ t, f = addTaskMsg t) ∨ (∃ i, f = toggleTaskMsg i))) ∧
    (∀ (s : AppState), s.wsConnected = true → s.readyState = ReadyState.opened →
      (step s Event.intentFetch).frames = [getTasksMsg] ∧
      (∀ i, (step s (Event.intentToggle i)).frames = [toggleTaskMsg i]) ∧
      (jsTrimEmpty s.newTaskText = false →
        (step s Event.intentAdd).frames = [addTaskMsg s.newTaskText])) := by
  constructor
  · intro s e
    rcases step_frames_cases s e with h | h | ⟨h, _⟩ | ⟨i, h⟩ <;> rw [h]
    · exact ⟨by simp, by simp⟩
    · exact ⟨by simp, by intro f hf; simp at hf; exact Or.inl hf⟩
    · exact ⟨by simp, by intro f hf; simp at hf; exact Or.inr (Or.inl ⟨_, hf⟩)⟩
    · exact ⟨by simp, by intro f hf; simp at hf; exact Or.inr (Or.inr ⟨i, hf⟩)⟩
  · intro s hw hr
    refine ⟨by simp [step, fetchTasks, hw, hr, sendWsMessage], ?_, ?_⟩
    · intro i; simp [step, handleToggleComplete, hw, hr, sendWsMessage]
    · intro ht; simp [step, handleAddTask, ht, hw, hr, sendWsMessage]

/-- Witness for C6 in a concrete Connected state: the refresh intent writes
exactly the `get_tasks` frame. -/
theorem C6_outbound_frame_shapes_witness :
    (step (AppState.mk (Json.arr []) true "Buy milk" ReadyState.opened)
        Event.intentFetch).frames = [getTasksMsg] :=
  (C6_outbound_frame_shapes.2 (AppState.mk (Json.arr []) true "Buy milk" ReadyState.opened) rfl rfl).1

/-- C7: whenever the input text is empty or trims to empty, the add-task
intent emits no outbound frame, and globally no event in any state ever
writes the frame `{action:"add_task", text:""}` — the guard
`if (!newTaskText.trim()) return;` rejects the empty text before the frame
is built. -/
theorem C7_empty_text_never_sent :
    (∀ (s : AppState), jsTrimEmpty s.newTaskText = true →
      (step s Event.intentAdd).frames = []) ∧
    (∀ (s : AppState) (e : Event), addTaskMsg "" ∉ (step s e).frames) := by
  constructor
  · intro s ht
    simp [step, handleAddTask, ht]
  · intro s e hmem
    rcases step_frames_cases s e with h | h | ⟨h, ht⟩ | ⟨i, h⟩ <;> rw [h] at hmem
    · simp at hmem
    · rw [List.mem_singleton] at hmem
      exact addTaskMsg_ne_getTasksMsg "" hmem
    · rw [List.mem_singleton] at hmem
      have heq : s.newTaskText = "" := by
        have := hmem
        simp [addTaskMsg] at this
        exact this.symm
      rw [heq] at ht
      simp [jsTrimEmpty] at ht
    · rw [List.mem_singleton] at hmem
      exact addTaskMsg_ne_toggleTaskMsg "" i hmem

/-- Witness for C7: the empty input in the freshly mounted state. -/
theorem C7_empty_text_never_sent_witness :
    (step (initState (Json.arr [])) Event.intentAdd).frames = [] :=
  C7_empty_text_never_sent.1 (initState (Json.arr [])) rfl

/-- C2 counterexample: in the freshly mounted state the connection is not
Connected, yet the add-task intent (the user pressing Add with the empty
input) produces no warning at all — `handleAddTask` returns at the
empty-text guard before reaching the connectivity check, contradicting the
claim that every intent issued while not Connected logs a local warning. -/
theorem C2_counterexample_empty_add_no_warning :
    (initState (Json.arr [])).wsConnected = false ∧
    (step (initState (Json.arr [])) Event.intentAdd).frames = [] ∧
    (step (initState (Json.arr [])) Event.intentAdd).warnings = [] :=
  ⟨rfl, rfl, rfl⟩

/-- C2 amended: every user intent issued while the connection state is not
Connected produces no outbound frame and leaves the component state — in
particular the task list — completely unchanged (so nothing is queued or
replayed later); a local warning is logged for refresh and toggle intents
always, and for add-task intents exactly when the input text does not trim
to empty (an all-whitespace add is rejected silently by the empty-text guard
before the connectivity check). -/
theorem C2_amended_disconnected_intents :
    ∀ (s : AppState), s.wsConnected = false →
      ((step s Event.intentFetch).state = s ∧ (step s Event.intentFetch).frames = [] ∧
        (step s Event.intentFetch).warnings ≠ []) ∧
      (∀ i, (step s (Event.intentToggle i)).state = s ∧
        (step s (Event.intentToggle i)).frames = [] ∧
        (step s (Event.intentToggle i)).warnings ≠ []) ∧
      ((step s Event.intentAdd).state = s ∧ (step s Event.intentAdd).frames = [] ∧
        ((step s Event.intentAdd).warnings ≠ [] ↔ jsTrimEmpty s.newTaskText = false)) := by
  intro s h
  refine ⟨⟨?_, ?_, ?_⟩, ?_, ?_, ?_, ?_⟩
  · simp [step, fetchTasks, h]
  · simp [step, fetchTasks, h]
  · simp [step, fetchTasks, h]
  · intro i
    refine ⟨?_, ?_, ?_⟩ <;> simp [step, handleToggleComplete, h]
  · by_cases ht : jsTrimEmpty s.newTaskText <;> simp [step, handleAddTask, ht, h]
  · by_cases ht : jsTrimEmpty s.newTaskText <;> simp [step, handleAddTask, ht, h]
  · by_cases ht : jsTrimEmpty s.newTaskText <;> simp [step, handleAddTask, ht, h]

/-- Witness for C2's amended claim: the refresh intent in a concrete
disconnected state is a warned no-op. -/
theorem C2_amended_disconnected_intents_witness :
    (step (AppState.mk (Json.arr []) false "Buy milk" ReadyState.connecting)
        Event.intentFetch).state
      = AppState.mk (Json.arr []) false "Buy milk" ReadyState.connecting ∧
    (step (AppState.mk (Json.arr []) false "Buy milk" ReadyState.connecting)
        Event.intentFetch).frames = [] ∧
    (step (AppState.mk (Json.arr []) false "Buy milk" ReadyState.connecting)
        Event.intentFetch).warnings ≠ [] :=
  (C2_amended_disconnected_intents (AppState.mk (Json.arr []) false "Buy milk" ReadyState.connecting) rfl).1
